import Mathlib

/-
Verification of the advanced-statistics derivation engine
(src/analytics/advanced_stats.py) against its specification.

Embedding conventions:
- Python `int` fields become `ℤ`; Python `float` quantities become `ℚ`
  (all arithmetic in the source is exact apart from float rounding, and no
  verified property hinges on rounding).
- Python `Optional[int]` becomes `Option ℤ`; `None` is `none`.
- Python truthiness tests (`if x:` / `all([...])`) are embedded explicitly:
  an optional int is truthy iff it is present and non-zero, a float is
  truthy iff non-zero.
- `int(...)` conversion truncates toward zero (`truncToInt`).
- The aggregator results are association lists mirroring dict insertion
  order; `calculate_all_team_stats` returns `Except Unit _` because its
  rebound block divides by a pool that its guard does not check, so the
  Python code can raise ZeroDivisionError (`Except.error ()`).
-/

/-- Truncation toward zero, the behaviour of Python `int()` on a float. -/
def truncToInt (q : ℚ) : ℤ := q.num.tdiv q.den

/-- Python truthiness of an `Optional[int]`: present and non-zero. -/
def truthyOptInt : Option ℤ → Bool
  | none => false
  | some v => v != 0

/-- Python truthiness of a float (here an exact rational): non-zero. -/
def truthyRat (q : ℚ) : Bool := q != 0

/-- Python truthiness of an `Optional[float]`: present and non-zero. -/
def truthyOptRat : Option ℚ → Bool
  | none => false
  | some v => v != 0

/-- Container for player box score statistics (`PlayerBoxScore` dataclass). -/
structure PlayerBoxScore where
  minutes_played : ℚ
  points : ℤ
  field_goals_made : ℤ
  field_goals_attempted : ℤ
  three_pointers_made : ℤ
  three_pointers_attempted : ℤ
  free_throws_made : ℤ
  free_throws_attempted : ℤ
  offensive_rebounds : ℤ
  defensive_rebounds : ℤ
  rebounds : ℤ
  assists : ℤ
  steals : ℤ
  blocks : ℤ
  turnovers : ℤ
  personal_fouls : ℤ
  team_minutes : ℚ := 240
  team_field_goals_made : Option ℤ := none
  team_field_goals_attempted : Option ℤ := none
  team_three_pointers_attempted : Option ℤ := none
  team_free_throws_attempted : Option ℤ := none
  team_offensive_rebounds : Option ℤ := none
  team_defensive_rebounds : Option ℤ := none
  team_rebounds : Option ℤ := none
  team_assists : Option ℤ := none
  team_turnovers : Option ℤ := none
  opponent_field_goals_attempted : Option ℤ := none
  opponent_three_pointers_attempted : Option ℤ := none
  opponent_offensive_rebounds : Option ℤ := none
  opponent_defensive_rebounds : Option ℤ := none
  opponent_rebounds : Option ℤ := none
deriving DecidableEq

/-- Container for team box score statistics (`TeamBoxScore` dataclass). -/
structure TeamBoxScore where
  minutes_played : ℚ := 240
  points : ℤ := 0
  field_goals_made : ℤ := 0
  field_goals_attempted : ℤ := 0
  three_pointers_made : ℤ := 0
  three_pointers_attempted : ℤ := 0
  free_throws_made : ℤ := 0
  free_throws_attempted : ℤ := 0
  offensive_rebounds : ℤ := 0
  defensive_rebounds : ℤ := 0
  rebounds : ℤ := 0
  assists : ℤ := 0
  steals : ℤ := 0
  blocks : ℤ := 0
  turnovers : ℤ := 0
  personal_fouls : ℤ := 0
deriving DecidableEq

/-- TS% = PTS / (2·(FGA + 0.44·FTA)), `None` when the denominator is zero. -/
def true_shooting_percentage (points fga fta : ℤ) : Option ℚ :=
  let denominator : ℚ := 2 * (fga + 0.44 * fta)
  if denominator = 0 then none
  else some (points / denominator)

/-- eFG% = (FGM + 0.5·3PM) / FGA, `None` when FGA = 0. -/
def effective_field_goal_percentage (fgm three_pm fga : ℤ) : Option ℚ :=
  if fga = 0 then none
  else some ((fgm + 0.5 * three_pm) / fga)

/-- USG% = 100·(FGA+0.44·FTA+TOV)·(TmMP/5) / (MP·(TmFGA+0.44·TmFTA+TmTOV)). -/
def usage_percentage (fga fta tov : ℤ) (mp : ℚ) (team_fga team_fta team_tov : ℤ)
    (team_mp : ℚ := 240) : Option ℚ :=
  if mp = 0 then none
  else
    let player_possessions : ℚ := fga + 0.44 * fta + tov
    let team_possessions : ℚ := team_fga + 0.44 * team_fta + team_tov
    if team_possessions = 0 then none
    else some (100 * (player_possessions * (team_mp / 5)) / (mp * team_possessions))

/-- AST% = 100·AST / ((MP/(TmMP/5))·TmFG − FG), `None` when the denominator ≤ 0. -/
def assist_percentage (ast : ℤ) (mp : ℚ) (team_fgm : ℤ) (team_mp : ℚ)
    (player_fgm : ℤ) : Option ℚ :=
  if mp = 0 ∨ team_mp = 0 then none
  else
    let teammate_fgm : ℚ := ((mp / (team_mp / 5)) * team_fgm) - player_fgm
    if teammate_fgm ≤ 0 then none
    else some (100 * ast / teammate_fgm)

/-- REB% = 100·(REB·(TmMP/5)) / (MP·(TmREB+OppREB)). -/
def rebound_percentage (reb : ℤ) (mp : ℚ) (team_reb opponent_reb : ℤ)
    (team_mp : ℚ := 240) : Option ℚ :=
  if mp = 0 then none
  else
    let available_rebounds : ℤ := team_reb + opponent_reb
    if available_rebounds = 0 then none
    else some (100 * (reb * (team_mp / 5)) / (mp * available_rebounds))

/-- ORB% = 100·(ORB·(TmMP/5)) / (MP·(TmORB+OppDREB)). -/
def offensive_rebound_percentage (oreb : ℤ) (mp : ℚ) (team_oreb opponent_dreb : ℤ)
    (team_mp : ℚ := 240) : Option ℚ :=
  if mp = 0 then none
  else
    let available_oreb : ℤ := team_oreb + opponent_dreb
    if available_oreb = 0 then none
    else some (100 * (oreb * (team_mp / 5)) / (mp * available_oreb))

/-- DRB% = 100·(DRB·(TmMP/5)) / (MP·(TmDRB+OppOREB)). -/
def defensive_rebound_percentage (dreb : ℤ) (mp : ℚ) (team_dreb opponent_oreb : ℤ)
    (team_mp : ℚ := 240) : Option ℚ :=
  if mp = 0 then none
  else
    let available_dreb : ℤ := team_dreb + opponent_oreb
    if available_dreb = 0 then none
    else some (100 * (dreb * (team_mp / 5)) / (mp * available_dreb))

/-- TOV% = 100·TOV / (FGA + 0.44·FTA + TOV). -/
def turnover_percentage (fga fta tov : ℤ) : Option ℚ :=
  let possessions : ℚ := fga + 0.44 * fta + tov
  if possessions = 0 then none
  else some (100 * tov / possessions)

/-- STL% = 100·STL / ((MP/(TmMP/5))·OppPoss). -/
def steal_percentage (stl : ℤ) (mp : ℚ) (opponent_possessions : ℤ)
    (team_mp : ℚ := 240) : Option ℚ :=
  if mp = 0 ∨ team_mp = 0 then none
  else
    let player_share : ℚ := mp / (team_mp / 5)
    let player_opponent_possessions : ℚ := player_share * opponent_possessions
    if player_opponent_possessions = 0 then none
    else some (100 * stl / player_opponent_possessions)

/-- BLK% = 100·BLK / ((MP/(TmMP/5))·(OppFGA − Opp3PA)). -/
def block_percentage (blk : ℤ) (mp : ℚ) (opponent_fga opponent_three_pa : ℤ)
    (team_mp : ℚ := 240) : Option ℚ :=
  if mp = 0 ∨ team_mp = 0 then none
  else
    let player_share : ℚ := mp / (team_mp / 5)
    let opponent_two_point_attempts : ℤ := opponent_fga - opponent_three_pa
    let player_opponent_2pa : ℚ := player_share * opponent_two_point_attempts
    if player_opponent_2pa = 0 then none
    else some (100 * blk / player_opponent_2pa)

/-- FTr = FTA / FGA, `None` when FGA = 0. -/
def free_throw_rate (fta fga : ℤ) : Option ℚ :=
  if fga = 0 then none
  else some ((fta : ℚ) / fga)

/-- PPP = PTS / (FGA + 0.44·FTA + TOV). -/
def points_per_possession (points fga fta tov : ℤ) : Option ℚ :=
  let possessions : ℚ := fga + 0.44 * fta + tov
  if possessions = 0 then none
  else some (points / possessions)

/-- Dean Oliver possession estimate: FGA + 0.44·FTA − ORB + TOV (always defined). -/
def estimate_possessions (fga fta oreb tov : ℤ) : ℚ :=
  fga + 0.44 * fta - oreb + tov

/-- Pace = 48·((TmPoss + OppPoss) / (2·(MP/5))), `None` when MP = 0. -/
def pace (team_possessions opponent_possessions : ℚ) (mp : ℚ) : Option ℚ :=
  if mp = 0 then none
  else some (48 * ((team_possessions + opponent_possessions) / (2 * (mp / 5))))

/-- Four Factors score; the turnover and offensive-rebound components are
guarded by Python truthiness on the input floats, so a zero input contributes
zero (for TOV% this drops the `1 − TOV%/100` term entirely). -/
def four_factors (efg_pct tov_pct orb_pct ftr : ℚ)
    (weights : ℚ × ℚ × ℚ × ℚ := (0.40, 0.25, 0.20, 0.15)) : ℚ :=
  let tov_factor : ℚ := if truthyRat tov_pct then 1 - tov_pct / 100 else 0
  weights.1 * efg_pct +
    weights.2.1 * tov_factor +
    weights.2.2.1 * (if truthyRat orb_pct then orb_pct / 100 else 0) +
    weights.2.2.2 * ftr

/-- Player aggregator: every key of the Python dict is assigned on every
path (each `if`/`else` in the source assigns the same key in both branches),
so the embedding records one entry per key, with the branch decision —
Python truthiness of the required context fields — inside the value. -/
def calculate_all_player_stats (b : PlayerBoxScore) : List (String × Option ℚ) :=
  [("ts_pct", true_shooting_percentage b.points b.field_goals_attempted
      b.free_throws_attempted),
   ("efg_pct", effective_field_goal_percentage b.field_goals_made
      b.three_pointers_made b.field_goals_attempted),
   ("ftr", free_throw_rate b.free_throws_attempted b.field_goals_attempted),
   ("ppp", points_per_possession b.points b.field_goals_attempted
      b.free_throws_attempted b.turnovers),
   ("usg_pct",
      if truthyOptInt b.team_field_goals_attempted &&
         truthyOptInt b.team_free_throws_attempted &&
         truthyOptInt b.team_turnovers then
        usage_percentage b.field_goals_attempted b.free_throws_attempted
          b.turnovers b.minutes_played (b.team_field_goals_attempted.getD 0)
          (b.team_free_throws_attempted.getD 0) (b.team_turnovers.getD 0)
          b.team_minutes
      else none),
   ("tov_pct", turnover_percentage b.field_goals_attempted
      b.free_throws_attempted b.turnovers),
   ("ast_pct",
      if truthyOptInt b.team_field_goals_made && truthyRat b.team_minutes then
        assist_percentage b.assists b.minutes_played
          (b.team_field_goals_made.getD 0) b.team_minutes b.field_goals_made
      else none),
   ("reb_pct",
      if truthyOptInt b.team_rebounds && truthyOptInt b.opponent_rebounds then
        rebound_percentage b.rebounds b.minutes_played (b.team_rebounds.getD 0)
          (b.opponent_rebounds.getD 0) b.team_minutes
      else none),
   ("oreb_pct",
      if truthyOptInt b.team_offensive_rebounds &&
         truthyOptInt b.opponent_defensive_rebounds then
        offensive_rebound_percentage b.offensive_rebounds b.minutes_played
          (b.team_offensive_rebounds.getD 0)
          (b.opponent_defensive_rebounds.getD 0) b.team_minutes
      else none),
   ("dreb_pct",
      if truthyOptInt b.team_defensive_rebounds &&
         truthyOptInt b.opponent_offensive_rebounds then
        defensive_rebound_percentage b.defensive_rebounds b.minutes_played
          (b.team_defensive_rebounds.getD 0)
          (b.opponent_offensive_rebounds.getD 0) b.team_minutes
      else none),
   ("stl_pct",
      if truthyOptInt b.opponent_field_goals_attempted then
        steal_percentage b.steals b.minutes_played
          (truncToInt (estimate_possessions
            (b.opponent_field_goals_attempted.getD 0) 0
            (b.opponent_offensive_rebounds.getD 0) 0))
          b.team_minutes
      else none),
   ("blk_pct",
      if truthyOptInt b.opponent_field_goals_attempted &&
         truthyOptInt b.opponent_three_pointers_attempted then
        block_percentage b.blocks b.minutes_played
          (b.opponent_field_goals_attempted.getD 0)
          (b.opponent_three_pointers_attempted.getD 0) b.team_minutes
      else none)]

/-- The team aggregator's possession estimate for a record, as computed at
the top of `calculate_all_team_stats` from its four counting fields. -/
def team_possessions_of (t : TeamBoxScore) : ℚ :=
  estimate_possessions t.field_goals_attempted t.free_throws_attempted
    t.offensive_rebounds t.turnovers

/-- The rebound block of `calculate_all_team_stats`.  The source guards on
`team.rebounds + opponent.rebounds > 0` but then divides by the offensive
pool `team.offensive_rebounds + opponent.defensive_rebounds` and the
defensive pool `team.defensive_rebounds + opponent.offensive_rebounds`;
when the guard passes but a pool is zero the Python code raises
ZeroDivisionError, embedded here as `Except.error ()`. -/
def team_rebound_triad (team opponent : TeamBoxScore) :
    Except Unit (Option ℚ × Option ℚ × Option ℚ) :=
  let total_rebounds : ℤ := team.rebounds + opponent.rebounds
  let oreb_pool : ℤ := team.offensive_rebounds + opponent.defensive_rebounds
  let dreb_pool : ℤ := team.defensive_rebounds + opponent.offensive_rebounds
  if 0 < total_rebounds then
    if oreb_pool = 0 then .error ()
    else if dreb_pool = 0 then .error ()
    else .ok (some (100 * team.offensive_rebounds / oreb_pool),
              some (100 * team.defensive_rebounds / dreb_pool),
              some (100 * team.rebounds / total_rebounds))
  else .ok (none, none, none)

/-- Points per 100 estimated possessions for a record, the rating value
computed by `calculate_all_team_stats` (its defensive rating is this same
computation on the opponent's record). -/
def team_ortg (t : TeamBoxScore) : Option ℚ :=
  if 0 < team_possessions_of t then
    some (100 * t.points / team_possessions_of t)
  else none

/-- The dict assembled by `calculate_all_team_stats`, given the values of
the rebound triad (oreb_pct, dreb_pct, reb_pct), in insertion order. -/
def team_stats_entries (team opponent : TeamBoxScore)
    (triad : Option ℚ × Option ℚ × Option ℚ) : List (String × Option ℚ) :=
  let ts := true_shooting_percentage team.points team.field_goals_attempted
    team.free_throws_attempted
  let efg := effective_field_goal_percentage team.field_goals_made
    team.three_pointers_made team.field_goals_attempted
  let ftr := free_throw_rate team.free_throws_attempted
    team.field_goals_attempted
  let team_poss := team_possessions_of team
  let opp_poss := team_possessions_of opponent
  let paceVal := pace team_poss opp_poss team.minutes_played
  let ppp := points_per_possession team.points team.field_goals_attempted
    team.free_throws_attempted team.turnovers
  let tovp := turnover_percentage team.field_goals_attempted
    team.free_throws_attempted team.turnovers
  let ortg := team_ortg team
  let drtg := team_ortg opponent
  let net_rtg :=
    if truthyOptRat ortg && truthyOptRat drtg then
      some (ortg.getD 0 - drtg.getD 0)
    else none
  let ff :=
    if truthyOptRat efg && truthyOptRat tovp && truthyOptRat triad.1 &&
       truthyOptRat ftr then
      some (four_factors (efg.getD 0) (tovp.getD 0) (triad.1.getD 0)
        (ftr.getD 0))
    else none
  [("ts_pct", ts), ("efg_pct", efg), ("ftr", ftr),
   ("possessions", some team_poss), ("pace", paceVal), ("ppp", ppp),
   ("tov_pct", tovp), ("oreb_pct", triad.1), ("dreb_pct", triad.2.1),
   ("reb_pct", triad.2.2), ("ortg", ortg), ("drtg", drtg),
   ("net_rtg", net_rtg), ("four_factors", ff)]

/-- Team aggregator: either raises from the rebound block (`error`) or
returns the assembled dict. -/
def calculate_all_team_stats (team opponent : TeamBoxScore) :
    Except Unit (List (String × Option ℚ)) :=
  (team_rebound_triad team opponent).map (team_stats_entries team opponent)

/-- A guarded formula returns `none` exactly when its guard condition holds. -/
lemma if_none_eq_none_iff {α : Type} {c : Prop} [Decidable c] {x : α} :
    (if c then (none : Option α) else some x) = none ↔ c := by
  split <;> simp_all

/-- C6: over non-negative integer inputs, TS% is undefined iff
FGA + 0.44·FTA = 0; eFG% and FTr are undefined iff FGA = 0; PPP is
undefined iff FGA + 0.44·FTA + TOV = 0; otherwise each returns the
documented ratio. -/
theorem shooting_metrics_undefined_iff_zero_denominator
    (points fgm three_pm fga fta tov : ℤ)
    (hp : 0 ≤ points) (hm : 0 ≤ fgm) (h3 : 0 ≤ three_pm) (ha : 0 ≤ fga)
    (ht : 0 ≤ fta) (hv : 0 ≤ tov) :
    (true_shooting_percentage points fga fta = none ↔
      (fga : ℚ) + 0.44 * fta = 0)
  ∧ ((fga : ℚ) + 0.44 * fta ≠ 0 → true_shooting_percentage points fga fta =
      some ((points : ℚ) / (2 * ((fga : ℚ) + 0.44 * fta))))
  ∧ (effective_field_goal_percentage fgm three_pm fga = none ↔ fga = 0)
  ∧ (fga ≠ 0 → effective_field_goal_percentage fgm three_pm fga =
      some (((fgm : ℚ) + 0.5 * three_pm) / fga))
  ∧ (free_throw_rate fta fga = none ↔ fga = 0)
  ∧ (fga ≠ 0 → free_throw_rate fta fga = some ((fta : ℚ) / fga))
  ∧ (points_per_possession points fga fta tov = none ↔
      (fga : ℚ) + 0.44 * fta + tov = 0)
  ∧ ((fga : ℚ) + 0.44 * fta + tov ≠ 0 →
      points_per_possession points fga fta tov =
        some ((points : ℚ) / ((fga : ℚ) + 0.44 * fta + tov))) := by
  refine ⟨?_, ?_, ?_, ?_, ?_, ?_, ?_, ?_⟩
  · rw [true_shooting_percentage, if_none_eq_none_iff]
    constructor <;> intro h <;> linarith
  · intro h
    rw [true_shooting_percentage,
      if_neg (fun hc => h (by linarith : (fga : ℚ) + 0.44 * fta = 0))]
  · rw [effective_field_goal_percentage, if_none_eq_none_iff]
  · intro h
    rw [effective_field_goal_percentage, if_neg h]
  · rw [free_throw_rate, if_none_eq_none_iff]
  · intro h
    rw [free_throw_rate, if_neg h]
  · rw [points_per_possession, if_none_eq_none_iff]
  · intro h
    rw [points_per_possession, if_neg h]

/-- Witness for C6 at PTS=30, FGA=20, FTA=5: the true-shooting value is the
documented ratio. -/
theorem shooting_metrics_undefined_iff_witness :
    true_shooting_percentage 30 20 5 =
      some (((30 : ℤ) : ℚ) /
        (2 * (((20 : ℤ) : ℚ) + 0.44 * ((5 : ℤ) : ℚ)))) :=
  (shooting_metrics_undefined_iff_zero_denominator 30 10 3 20 5 2
    (by norm_num) (by norm_num) (by norm_num) (by norm_num) (by norm_num)
    (by norm_num)).2.1 (by norm_num)

/-- C7: with FGA > 0 and FGM ≤ FGA, eFG% is defined, dominates FG% whenever
3PM > 0, and equals FG% when 3PM = 0. -/
theorem efg_dominates_fg_percentage (fgm three_pm fga : ℤ)
    (hm : 0 ≤ fgm) (h3 : 0 ≤ three_pm) (hfa : 0 < fga) (hle : fgm ≤ fga) :
    ∃ v, effective_field_goal_percentage fgm three_pm fga = some v ∧
      (0 < three_pm → (fgm : ℚ) / fga ≤ v) ∧
      (three_pm = 0 → v = (fgm : ℚ) / fga) := by
  have hne : fga ≠ 0 := by omega
  refine ⟨((fgm : ℚ) + 0.5 * three_pm) / fga, ?_, ?_, ?_⟩
  · simp [effective_field_goal_percentage, hne]
  · intro h3p
    have hfq : (0 : ℚ) < fga := by exact_mod_cast hfa
    have h3q : (0 : ℚ) ≤ (three_pm : ℚ) := by exact_mod_cast h3
    gcongr
    linarith
  · intro h0
    subst h0
    norm_num

/-- Witness for C7 at FGM=10, 3PM=3, FGA=20. -/
theorem efg_dominates_fg_percentage_witness :
    ∃ v, effective_field_goal_percentage 10 3 20 = some v ∧
      (0 < (3 : ℤ) → ((10 : ℤ) : ℚ) / ((20 : ℤ) : ℚ) ≤ v) ∧
      ((3 : ℤ) = 0 → v = ((10 : ℤ) : ℚ) / ((20 : ℤ) : ℚ)) :=
  efg_dominates_fg_percentage 10 3 20 (by norm_num) (by norm_num)
    (by norm_num) (by norm_num)

/-- C9: the spec's concrete scenarios, in exact rational arithmetic. -/
theorem concrete_scenarios_match_documented_values :
    true_shooting_percentage 30 20 5 = some (30 / 44.4)
  ∧ effective_field_goal_percentage 10 3 20 = some 0.575
  ∧ estimate_possessions 88 20 10 14 = 100.8
  ∧ pace 100.8 99.2 240 = some 100 := by
  refine ⟨?_, ?_, ?_, ?_⟩ <;>
    norm_num [true_shooting_percentage, effective_field_goal_percentage,
      estimate_possessions, pace]

/-- C3 counterexample: at TOV% = 0 the source replaces the turnover factor
`1 − TOV%/100` (which would be 1) by 0, so the documented formula fails. -/
theorem four_factors_zero_tov_deviates :
    ¬ (four_factors 1 0 0 0 =
        0.40 * 1 + 0.25 * (1 - 0 / 100) + 0.20 * (0 / 100) + 0.15 * 0) := by
  norm_num [four_factors, truthyRat]

/-- C3 amended: whenever TOV% ≠ 0, the default-weight Four Factors score is
exactly 0.40·eFG% + 0.25·(1 − TOV%/100) + 0.20·(ORB%/100) + 0.15·FTr. -/
theorem four_factors_formula_of_nonzero_tov (efg_pct tov_pct orb_pct ftr : ℚ)
    (h : tov_pct ≠ 0) :
    four_factors efg_pct tov_pct orb_pct ftr =
      0.40 * efg_pct + 0.25 * (1 - tov_pct / 100) + 0.20 * (orb_pct / 100) +
        0.15 * ftr := by
  simp only [four_factors, truthyRat]
  rw [if_pos (by simpa using h)]
  by_cases ho : orb_pct = 0
  · rw [if_neg (by simpa using ho), ho]
    ring
  · rw [if_pos (by simpa using ho)]

/-- Witness for C3's amended formula at eFG%=1, TOV%=1, ORB%=1, FTr=1. -/
theorem four_factors_formula_witness :
    four_factors 1 1 1 1 =
      0.40 * 1 + 0.25 * (1 - 1 / 100) + 0.20 * (1 / 100) + 0.15 * 1 :=
  four_factors_formula_of_nonzero_tov 1 1 1 1 (by norm_num)

/-- Lookup of `usg_pct` in the player aggregator result. -/
lemma lookup_usg_pct (b : PlayerBoxScore) :
    (calculate_all_player_stats b).lookup "usg_pct" =
      some (if truthyOptInt b.team_field_goals_attempted &&
               truthyOptInt b.team_free_throws_attempted &&
               truthyOptInt b.team_turnovers then
              usage_percentage b.field_goals_attempted b.free_throws_attempted
                b.turnovers b.minutes_played
                (b.team_field_goals_attempted.getD 0)
                (b.team_free_throws_attempted.getD 0) (b.team_turnovers.getD 0)
                b.team_minutes
            else none) := rfl

/-- Lookup of `ast_pct` in the player aggregator result. -/
lemma lookup_ast_pct (b : PlayerBoxScore) :
    (calculate_all_player_stats b).lookup "ast_pct" =
      some (if truthyOptInt b.team_field_goals_made &&
               truthyRat b.team_minutes then
              assist_percentage b.assists b.minutes_played
                (b.team_field_goals_made.getD 0) b.team_minutes
                b.field_goals_made
            else none) := rfl

/-- Lookup of `reb_pct` in the player aggregator result. -/
lemma lookup_reb_pct (b : PlayerBoxScore) :
    (calculate_all_player_stats b).lookup "reb_pct" =
      some (if truthyOptInt b.team_rebounds &&
               truthyOptInt b.opponent_rebounds then
              rebound_percentage b.rebounds b.minutes_played
                (b.team_rebounds.getD 0) (b.opponent_rebounds.getD 0)
                b.team_minutes
            else none) := rfl

/-- Lookup of `oreb_pct` in the player aggregator result. -/
lemma lookup_oreb_pct (b : PlayerBoxScore) :
    (calculate_all_player_stats b).lookup "oreb_pct" =
      some (if truthyOptInt b.team_offensive_rebounds &&
               truthyOptInt b.opponent_defensive_rebounds then
              offensive_rebound_percentage b.offensive_rebounds
                b.minutes_played (b.team_offensive_rebounds.getD 0)
                (b.opponent_defensive_rebounds.getD 0) b.team_minutes
            else none) := rfl

/-- Lookup of `dreb_pct` in the player aggregator result. -/
lemma lookup_dreb_pct (b : PlayerBoxScore) :
    (calculate_all_player_stats b).lookup "dreb_pct" =
      some (if truthyOptInt b.team_defensive_rebounds &&
               truthyOptInt b.opponent_offensive_rebounds then
              defensive_rebound_percentage b.defensive_rebounds
                b.minutes_played (b.team_defensive_rebounds.getD 0)
                (b.opponent_offensive_rebounds.getD 0) b.team_minutes
            else none) := rfl

/-- Lookup of `stl_pct` in the player aggregator result. -/
lemma lookup_stl_pct (b : PlayerBoxScore) :
    (calculate_all_player_stats b).lookup "stl_pct" =
      some (if truthyOptInt b.opponent_field_goals_attempted then
              steal_percentage b.steals b.minutes_played
                (truncToInt (estimate_possessions
                  (b.opponent_field_goals_attempted.getD 0) 0
                  (b.opponent_offensive_rebounds.getD 0) 0))
                b.team_minutes
            else none) := rfl

/-- Lookup of `blk_pct` in the player aggregator result. -/
lemma lookup_blk_pct (b : PlayerBoxScore) :
    (calculate_all_player_stats b).lookup "blk_pct" =
      some (if truthyOptInt b.opponent_field_goals_attempted &&
               truthyOptInt b.opponent_three_pointers_attempted then
              block_percentage b.blocks b.minutes_played
                (b.opponent_field_goals_attempted.getD 0)
                (b.opponent_three_pointers_attempted.getD 0) b.team_minutes
            else none) := rfl

/-- USG% is defined when minutes and the team possession term are non-zero. -/
lemma usage_percentage_some (fga fta tov : ℤ) (mp : ℚ) (tfga tfta ttov : ℤ)
    (tmp : ℚ) (hmp : mp ≠ 0)
    (hposs : (tfga : ℚ) + 0.44 * tfta + ttov ≠ 0) :
    ∃ v, usage_percentage fga fta tov mp tfga tfta ttov tmp = some v := by
  simp only [usage_percentage]
  rw [if_neg hmp, if_neg hposs]
  exact ⟨_, rfl⟩

/-- AST% is defined when minutes terms are non-zero and the teammate
field-goal estimate is positive. -/
lemma assist_percentage_some (ast : ℤ) (mp : ℚ) (tfgm : ℤ) (tmp : ℚ)
    (pfgm : ℤ) (hmp : mp ≠ 0) (htm : tmp ≠ 0)
    (hpos : 0 < (mp / (tmp / 5)) * tfgm - pfgm) :
    ∃ v, assist_percentage ast mp tfgm tmp pfgm = some v := by
  simp only [assist_percentage]
  rw [if_neg (by push_neg; exact ⟨hmp, htm⟩), if_neg (not_le.mpr hpos)]
  exact ⟨_, rfl⟩

/-- REB% is defined when minutes and the rebound pool are non-zero. -/
lemma rebound_percentage_some (reb : ℤ) (mp : ℚ) (treb oreb : ℤ) (tmp : ℚ)
    (hmp : mp ≠ 0) (hav : treb + oreb ≠ 0) :
    ∃ v, rebound_percentage reb mp treb oreb tmp = some v := by
  simp only [rebound_percentage]
  rw [if_neg hmp, if_neg hav]
  exact ⟨_, rfl⟩

/-- ORB% is defined when minutes and the offensive pool are non-zero. -/
lemma offensive_rebound_percentage_some (oreb : ℤ) (mp : ℚ)
    (toreb odreb : ℤ) (tmp : ℚ) (hmp : mp ≠ 0) (hav : toreb + odreb ≠ 0) :
    ∃ v, offensive_rebound_percentage oreb mp toreb odreb tmp = some v := by
  simp only [offensive_rebound_percentage]
  rw [if_neg hmp, if_neg hav]
  exact ⟨_, rfl⟩

/-- DRB% is defined when minutes and the defensive pool are non-zero. -/
lemma defensive_rebound_percentage_some (dreb : ℤ) (mp : ℚ)
    (tdreb ooreb : ℤ) (tmp : ℚ) (hmp : mp ≠ 0) (hav : tdreb + ooreb ≠ 0) :
    ∃ v, defensive_rebound_percentage dreb mp tdreb ooreb tmp = some v := by
  simp only [defensive_rebound_percentage]
  rw [if_neg hmp, if_neg hav]
  exact ⟨_, rfl⟩

/-- STL% is defined when minutes terms and opponent possessions are
non-zero. -/
lemma steal_percentage_some (stl : ℤ) (mp : ℚ) (opp : ℤ) (tmp : ℚ)
    (hmp : mp ≠ 0) (htm : tmp ≠ 0) (hopp : opp ≠ 0) :
    ∃ v, steal_percentage stl mp opp tmp = some v := by
  simp only [steal_percentage]
  have h5 : (5 : ℚ) ≠ 0 := by norm_num
  have hden : mp / (tmp / 5) * (opp : ℚ) ≠ 0 :=
    mul_ne_zero (div_ne_zero hmp (div_ne_zero htm h5))
      (Int.cast_ne_zero.mpr hopp)
  rw [if_neg (by push_neg; exact ⟨hmp, htm⟩), if_neg hden]
  exact ⟨_, rfl⟩

/-- BLK% is defined when minutes terms are non-zero and the opponent took
some two-point attempts. -/
lemma block_percentage_some (blk : ℤ) (mp : ℚ) (ofga o3pa : ℤ) (tmp : ℚ)
    (hmp : mp ≠ 0) (htm : tmp ≠ 0) (hne : ofga ≠ o3pa) :
    ∃ v, block_percentage blk mp ofga o3pa tmp = some v := by
  simp only [block_percentage]
  have h5 : (5 : ℚ) ≠ 0 := by norm_num
  have hsub : ((ofga - o3pa : ℤ) : ℚ) ≠ 0 :=
    Int.cast_ne_zero.mpr (sub_ne_zero_of_ne hne)
  have hden : mp / (tmp / 5) * ((ofga - o3pa : ℤ) : ℚ) ≠ 0 :=
    mul_ne_zero (div_ne_zero hmp (div_ne_zero htm h5)) hsub
  rw [if_neg (by push_neg; exact ⟨hmp, htm⟩), if_neg hden]
  exact ⟨_, rfl⟩

/-- C2 (amended): in `calculate_all_player_stats`, every context-dependent
metric is undefined whenever any optional field its presence check uses is
absent; because presence is tested by Python truthiness, a present zero also
yields undefined (which refutes the original claim), and a metric is defined
whenever the checked fields are present and positive, minutes and team
minutes are positive, and the metric's own denominator is non-degenerate
(teammate field goals positive for AST%, truncated opponent possessions
non-zero for STL%, opponent two-point attempts non-zero for BLK%). -/
theorem player_context_metrics_presence (b : PlayerBoxScore) :
    ((b.team_field_goals_attempted = none ∨
      b.team_free_throws_attempted = none ∨ b.team_turnovers = none) →
        (calculate_all_player_stats b).lookup "usg_pct" = some none)
  ∧ (b.team_field_goals_made = none →
        (calculate_all_player_stats b).lookup "ast_pct" = some none)
  ∧ ((b.team_rebounds = none ∨ b.opponent_rebounds = none) →
        (calculate_all_player_stats b).lookup "reb_pct" = some none)
  ∧ ((b.team_offensive_rebounds = none ∨
      b.opponent_defensive_rebounds = none) →
        (calculate_all_player_stats b).lookup "oreb_pct" = some none)
  ∧ ((b.team_defensive_rebounds = none ∨
      b.opponent_offensive_rebounds = none) →
        (calculate_all_player_stats b).lookup "dreb_pct" = some none)
  ∧ (b.opponent_field_goals_attempted = none →
        (calculate_all_player_stats b).lookup "stl_pct" = some none)
  ∧ ((b.opponent_field_goals_attempted = none ∨
      b.opponent_three_pointers_attempted = none) →
        (calculate_all_player_stats b).lookup "blk_pct" = some none)
  ∧ (0 < b.minutes_played → 0 < b.team_minutes →
      (∀ x y z, b.team_field_goals_attempted = some x →
        b.team_free_throws_attempted = some y → b.team_turnovers = some z →
        0 < x → 0 < y → 0 < z →
        ∃ v, (calculate_all_player_stats b).lookup "usg_pct" = some (some v))
    ∧ (∀ x, b.team_field_goals_made = some x → 0 < x →
        0 < (b.minutes_played / (b.team_minutes / 5)) * x -
          b.field_goals_made →
        ∃ v, (calculate_all_player_stats b).lookup "ast_pct" = some (some v))
    ∧ (∀ x y, b.team_rebounds = some x → b.opponent_rebounds = some y →
        0 < x → 0 < y →
        ∃ v, (calculate_all_player_stats b).lookup "reb_pct" = some (some v))
    ∧ (∀ x y, b.team_offensive_rebounds = some x →
        b.opponent_defensive_rebounds = some y → 0 < x → 0 < y →
        ∃ v, (calculate_all_player_stats b).lookup "oreb_pct" =
          some (some v))
    ∧ (∀ x y, b.team_defensive_rebounds = some x →
        b.opponent_offensive_rebounds = some y → 0 < x → 0 < y →
        ∃ v, (calculate_all_player_stats b).lookup "dreb_pct" =
          some (some v))
    ∧ (∀ x, b.opponent_field_goals_attempted = some x → 0 < x →
        truncToInt (estimate_possessions x 0
          (b.opponent_offensive_rebounds.getD 0) 0) ≠ 0 →
        ∃ v, (calculate_all_player_stats b).lookup "stl_pct" = some (some v))
    ∧ (∀ x y, b.opponent_field_goals_attempted = some x →
        b.opponent_three_pointers_attempted = some y → 0 < x → 0 < y →
        x ≠ y →
        ∃ v, (calculate_all_player_stats b).lookup "blk_pct" =
          some (some v))) := by
  refine ⟨?_, ?_, ?_, ?_, ?_, ?_, ?_, ?_⟩
  · intro h
    rw [lookup_usg_pct]
    rcases h with h | h | h <;> simp [truthyOptInt, h]
  · intro h
    rw [lookup_ast_pct]
    simp [truthyOptInt, h]
  · intro h
    rw [lookup_reb_pct]
    rcases h with h | h <;> simp [truthyOptInt, h]
  · intro h
    rw [lookup_oreb_pct]
    rcases h with h | h <;> simp [truthyOptInt, h]
  · intro h
    rw [lookup_dreb_pct]
    rcases h with h | h <;> simp [truthyOptInt, h]
  · intro h
    rw [lookup_stl_pct]
    simp [truthyOptInt, h]
  · intro h
    rw [lookup_blk_pct]
    rcases h with h | h <;> simp [truthyOptInt, h]
  · intro hmp htm
    refine ⟨?_, ?_, ?_, ?_, ?_, ?_, ?_⟩
    · intro x y z hx hy hz hx0 hy0 hz0
      rw [lookup_usg_pct, hx, hy, hz]
      have hxq : (0 : ℚ) < x := by exact_mod_cast hx0
      have hyq : (0 : ℚ) < y := by exact_mod_cast hy0
      have hzq : (0 : ℚ) < z := by exact_mod_cast hz0
      obtain ⟨v, hv⟩ := usage_percentage_some b.field_goals_attempted
        b.free_throws_attempted b.turnovers b.minutes_played x y z
        b.team_minutes hmp.ne' (by nlinarith)
      refine ⟨v, ?_⟩
      simp [truthyOptInt, hx0.ne', hy0.ne', hz0.ne', hv]
    · intro x hx hx0 hpos
      rw [lookup_ast_pct, hx]
      obtain ⟨v, hv⟩ := assist_percentage_some b.assists b.minutes_played x
        b.team_minutes b.field_goals_made hmp.ne' htm.ne' hpos
      refine ⟨v, ?_⟩
      simp [truthyOptInt, truthyRat, hx0.ne', htm.ne', hv]
    · intro x y hx hy hx0 hy0
      rw [lookup_reb_pct, hx, hy]
      obtain ⟨v, hv⟩ := rebound_percentage_some b.rebounds b.minutes_played
        x y b.team_minutes hmp.ne' (by omega)
      refine ⟨v, ?_⟩
      simp [truthyOptInt, hx0.ne', hy0.ne', hv]
    · intro x y hx hy hx0 hy0
      rw [lookup_oreb_pct, hx, hy]
      obtain ⟨v, hv⟩ := offensive_rebound_percentage_some
        b.offensive_rebounds b.minutes_played x y b.team_minutes hmp.ne'
        (by omega)
      refine ⟨v, ?_⟩
      simp [truthyOptInt, hx0.ne', hy0.ne', hv]
    · intro x y hx hy hx0 hy0
      rw [lookup_dreb_pct, hx, hy]
      obtain ⟨v, hv⟩ := defensive_rebound_percentage_some
        b.defensive_rebounds b.minutes_played x y b.team_minutes hmp.ne'
        (by omega)
      refine ⟨v, ?_⟩
      simp [truthyOptInt, hx0.ne', hy0.ne', hv]
    · intro x hx hx0 htr
      rw [lookup_stl_pct, hx]
      obtain ⟨v, hv⟩ := steal_percentage_some b.steals b.minutes_played
        (truncToInt (estimate_possessions x 0
          (b.opponent_offensive_rebounds.getD 0) 0)) b.team_minutes
        hmp.ne' htm.ne' htr
      refine ⟨v, ?_⟩
      simp [truthyOptInt, hx0.ne', hv]
    · intro x y hx hy hx0 hy0 hne
      rw [lookup_blk_pct, hx, hy]
      obtain ⟨v, hv⟩ := block_percentage_some b.blocks b.minutes_played x y
        b.team_minutes hmp.ne' htm.ne' hne
      refine ⟨v, ?_⟩
      simp [truthyOptInt, hx0.ne', hy0.ne', hv]

/-- A player line with all raw counting statistics filled in. -/
def basePlayer : PlayerBoxScore :=
  { minutes_played := 10, points := 12, field_goals_made := 5,
    field_goals_attempted := 11, three_pointers_made := 1,
    three_pointers_attempted := 4, free_throws_made := 1,
    free_throws_attempted := 2, offensive_rebounds := 2,
    defensive_rebounds := 3, rebounds := 5, assists := 4, steals := 2,
    blocks := 1, turnovers := 3, personal_fouls := 2 }

/-- The same player line with usage context present but with zero team
field-goal attempts. -/
def playerZeroContext : PlayerBoxScore :=
  { basePlayer with
    team_field_goals_attempted := some 0,
    team_free_throws_attempted := some 20, team_turnovers := some 5 }

/-- C2 counterexample: all three usage-context fields are present (non-null)
and minutes played is 10 ≠ 0, yet `usg_pct` is undefined, because the
source's `all([...])` treats the present zero in team field-goal attempts as
absent. -/
theorem player_usg_undefined_despite_present_context :
    (calculate_all_player_stats playerZeroContext).lookup "usg_pct" =
      some none := rfl

/-- The same player line with full positive context for every metric. -/
def playerFullContext : PlayerBoxScore :=
  { basePlayer with
    team_field_goals_made := some 40, team_field_goals_attempted := some 88,
    team_three_pointers_attempted := some 30,
    team_free_throws_attempted := some 20,
    team_offensive_rebounds := some 10, team_defensive_rebounds := some 30,
    team_rebounds := some 40, team_assists := some 25,
    team_turnovers := some 14, opponent_field_goals_attempted := some 90,
    opponent_three_pointers_attempted := some 28,
    opponent_offensive_rebounds := some 8,
    opponent_defensive_rebounds := some 32, opponent_rebounds := some 40 }

/-- Witness for C2 at `playerFullContext`: the usage branch of the theorem
applied at a record whose context fields are all present and positive. -/
theorem player_context_metrics_presence_witness :
    ∃ v, (calculate_all_player_stats playerFullContext).lookup "usg_pct" =
      some (some v) :=
  ((player_context_metrics_presence playerFullContext).2.2.2.2.2.2.2
      (by norm_num [playerFullContext, basePlayer])
      (by norm_num [playerFullContext, basePlayer])).1
    88 20 14 rfl rfl rfl (by norm_num) (by norm_num) (by norm_num)

/-- Truncation of an integer-valued rational is the integer itself. -/
lemma truncToInt_intCast (k : ℤ) : truncToInt (k : ℚ) = k := by
  simp [truncToInt]

/-- The same player line with opponent field-goal attempts present but zero
minutes played. -/
def playerZeroMinutes : PlayerBoxScore :=
  { basePlayer with
    minutes_played := 0,
    opponent_field_goals_attempted := some 50 }

/-- C10 counterexample: opponent field-goal attempts are present and
non-zero and opponent offensive rebounds absent, yet `stl_pct` is undefined
because minutes played is zero — the original claim asserted it defined for
every such record. -/
theorem stl_pct_undefined_at_zero_minutes :
    (calculate_all_player_stats playerZeroMinutes).lookup "stl_pct" =
      some none := rfl

/-- C10 (amended): when opponent field-goal attempts are present and
non-zero, opponent offensive rebounds absent, and minutes and team minutes
non-zero, `stl_pct` is computed: the absent rebound field is substituted by
0 in the possession estimate, which is truncated to an integer and passed to
`steal_percentage`, yielding a defined value. -/
theorem stl_pct_substitutes_zero_for_absent_opponent_oreb
    (b : PlayerBoxScore) (k : ℤ)
    (hk : b.opponent_field_goals_attempted = some k) (hk0 : k ≠ 0)
    (hor : b.opponent_offensive_rebounds = none)
    (hmp : b.minutes_played ≠ 0) (htm : b.team_minutes ≠ 0) :
    (calculate_all_player_stats b).lookup "stl_pct" =
      some (steal_percentage b.steals b.minutes_played
        (truncToInt (estimate_possessions k 0 0 0)) b.team_minutes)
  ∧ ∃ v, (calculate_all_player_stats b).lookup "stl_pct" =
      some (some v) := by
  have hposs : estimate_possessions k 0 0 0 = (k : ℚ) := by
    simp [estimate_possessions]
  have htr : truncToInt (estimate_possessions k 0 0 0) = k := by
    rw [hposs, truncToInt_intCast]
  constructor
  · rw [lookup_stl_pct, hk, hor]
    simp [truthyOptInt, hk0]
  · rw [lookup_stl_pct, hk, hor]
    obtain ⟨v, hv⟩ := steal_percentage_some b.steals b.minutes_played k
      b.team_minutes hmp htm hk0
    refine ⟨v, ?_⟩
    simp only [truthyOptInt, Option.getD_some, Option.getD_none]
    rw [if_pos (by simpa using hk0)]
    rw [show estimate_possessions k 0 0 0 = (k : ℚ) from hposs] at htr ⊢
    rw [truncToInt_intCast, hv]

/-- The same player line with opponent field-goal attempts present and all
other opponent fields absent. -/
def playerStlOnly : PlayerBoxScore :=
  { basePlayer with opponent_field_goals_attempted := some 50 }

/-- Witness for C10 at `playerStlOnly` (50 opponent attempts, 10 minutes). -/
theorem stl_pct_substitutes_zero_witness :
    (calculate_all_player_stats playerStlOnly).lookup "stl_pct" =
      some (steal_percentage playerStlOnly.steals
        playerStlOnly.minutes_played
        (truncToInt (estimate_possessions 50 0 0 0))
        playerStlOnly.team_minutes)
  ∧ ∃ v, (calculate_all_player_stats playerStlOnly).lookup "stl_pct" =
      some (some v) :=
  stl_pct_substitutes_zero_for_absent_opponent_oreb playerStlOnly 50 rfl
    (by norm_num) rfl (by norm_num [playerStlOnly, basePlayer])
    (by norm_num [playerStlOnly, basePlayer])

/-- A team line whose defensive rebound is its only rebound: the rebound
guard `rebounds + rebounds > 0` passes while the offensive pool
`offensive_rebounds + opponent.defensive_rebounds` is zero. -/
def teamOnlyDefReb : TeamBoxScore :=
  { defensive_rebounds := 1, rebounds := 1 }

/-- An all-zero opposing team line. -/
def teamAllZero : TeamBoxScore := {}

/-- C1: with non-negative counts and rebounds = offensive + defensive on
both sides, `calculate_all_team_stats` still aborts: the rebound guard
checks the total rebound count but the subsequent division is by the
offensive rebound pool, which is zero here, so the Python source raises
ZeroDivisionError instead of returning a mapping. -/
theorem team_stats_zero_division_on_unguarded_rebound_pool :
    calculate_all_team_stats teamOnlyDefReb teamAllZero =
      Except.error () := rfl

/-- An `ok` result of the team aggregator is the entry list built from an
`ok` rebound triad. -/
lemma calculate_all_team_stats_ok (t o : TeamBoxScore)
    (l : List (String × Option ℚ))
    (h : calculate_all_team_stats t o = Except.ok l) :
    ∃ triad, team_rebound_triad t o = Except.ok triad ∧
      l = team_stats_entries t o triad := by
  unfold calculate_all_team_stats at h
  cases he : team_rebound_triad t o with
  | error e =>
    rw [he] at h
    simp [Except.map] at h
  | ok triad =>
    rw [he] at h
    simp only [Except.map, Except.ok.injEq] at h
    exact ⟨triad, rfl, h.symm⟩

/-- Characterization of an `ok` rebound triad: either the total-rebound
guard passed, both pools are non-zero and the triad holds the three
percentages, or the guard failed and the triad is all-undefined. -/
lemma team_rebound_triad_ok_cases (t o : TeamBoxScore)
    (triad : Option ℚ × Option ℚ × Option ℚ)
    (h : team_rebound_triad t o = Except.ok triad) :
    (0 < t.rebounds + o.rebounds ∧
     t.offensive_rebounds + o.defensive_rebounds ≠ 0 ∧
     t.defensive_rebounds + o.offensive_rebounds ≠ 0 ∧
     triad = (some (100 * (t.offensive_rebounds : ℚ) /
         ((t.offensive_rebounds + o.defensive_rebounds : ℤ) : ℚ)),
       some (100 * (t.defensive_rebounds : ℚ) /
         ((t.defensive_rebounds + o.offensive_rebounds : ℤ) : ℚ)),
       some (100 * (t.rebounds : ℚ) / ((t.rebounds + o.rebounds : ℤ) : ℚ))))
  ∨ (¬ 0 < t.rebounds + o.rebounds ∧ triad = (none, none, none)) := by
  simp only [team_rebound_triad] at h
  split at h
  · split at h
    · simp at h
    · split at h
      · simp at h
      · left
        simp only [Except.ok.injEq] at h
        exact ⟨by assumption, by assumption, by assumption, h.symm⟩
  · right
    simp only [Except.ok.injEq] at h
    exact ⟨by assumption, h.symm⟩

/-- Lookup of `oreb_pct` in the assembled team dict. -/
lemma team_lookup_oreb_pct (t o : TeamBoxScore)
    (triad : Option ℚ × Option ℚ × Option ℚ) :
    (team_stats_entries t o triad).lookup "oreb_pct" = some triad.1 := rfl

/-- Lookup of `dreb_pct` in the assembled team dict. -/
lemma team_lookup_dreb_pct (t o : TeamBoxScore)
    (triad : Option ℚ × Option ℚ × Option ℚ) :
    (team_stats_entries t o triad).lookup "dreb_pct" = some triad.2.1 := rfl

/-- Lookup of `reb_pct` in the assembled team dict. -/
lemma team_lookup_reb_pct (t o : TeamBoxScore)
    (triad : Option ℚ × Option ℚ × Option ℚ) :
    (team_stats_entries t o triad).lookup "reb_pct" = some triad.2.2 := rfl

/-- Lookup of `ortg` in the assembled team dict. -/
lemma team_lookup_ortg (t o : TeamBoxScore)
    (triad : Option ℚ × Option ℚ × Option ℚ) :
    (team_stats_entries t o triad).lookup "ortg" = some (team_ortg t) := rfl

/-- Lookup of `drtg` in the assembled team dict. -/
lemma team_lookup_drtg (t o : TeamBoxScore)
    (triad : Option ℚ × Option ℚ × Option ℚ) :
    (team_stats_entries t o triad).lookup "drtg" = some (team_ortg o) := rfl

/-- Lookup of `net_rtg` in the assembled team dict. -/
lemma team_lookup_net_rtg (t o : TeamBoxScore)
    (triad : Option ℚ × Option ℚ × Option ℚ) :
    (team_stats_entries t o triad).lookup "net_rtg" =
      some (if truthyOptRat (team_ortg t) && truthyOptRat (team_ortg o) then
              some ((team_ortg t).getD 0 - (team_ortg o).getD 0)
            else none) := rfl

/-- A team line scoring zero points on one positive-possession attempt. -/
def teamZeroPoints : TeamBoxScore := { points := 0, field_goals_attempted := 1 }

/-- A team line scoring ten points on one positive-possession attempt. -/
def teamTenPoints : TeamBoxScore := { points := 10, field_goals_attempted := 1 }

/-- C4 counterexample: both possession estimates are 1 > 0, so ortg = 0 and
drtg = 1000 are both defined, yet net_rtg is undefined — the source tests
the ratings with `and`, so a rating of exactly 0.0 is treated as missing. -/
theorem net_rating_none_despite_defined_ratings :
    (calculate_all_team_stats teamZeroPoints teamTenPoints).map
      (fun l => (l.lookup "ortg", l.lookup "drtg", l.lookup "net_rtg")) =
    Except.ok (some (some 0), some (some 1000), some none) := by
  have h1 : team_ortg teamZeroPoints = some 0 := by
    norm_num [team_ortg, team_possessions_of, estimate_possessions,
      teamZeroPoints]
  have h2 : team_ortg teamTenPoints = some 1000 := by
    norm_num [team_ortg, team_possessions_of, estimate_possessions,
      teamTenPoints]
  have hcalc : calculate_all_team_stats teamZeroPoints teamTenPoints =
      Except.ok (team_stats_entries teamZeroPoints teamTenPoints
        (none, none, none)) := rfl
  rw [hcalc]
  simp only [Except.map]
  rw [team_lookup_ortg, team_lookup_drtg, team_lookup_net_rtg, h1, h2]
  norm_num [truthyOptRat]

/-- C4 (amended): in an `ok` result of `calculate_all_team_stats`, ortg is
defined iff the team's estimated possessions are strictly positive (then
equal to 100·points/possessions), drtg is defined iff the opponent's are,
and net_rtg = ortg − drtg is defined iff both ratings are defined *and
non-zero* (Python truthiness of the two floats); a defined rating equal to
0 makes net_rtg undefined, which refutes the original claim. -/
theorem team_ratings_definedness (t o : TeamBoxScore)
    (l : List (String × Option ℚ))
    (h : calculate_all_team_stats t o = Except.ok l) :
    ((∃ v, l.lookup "ortg" = some (some v)) ↔ 0 < team_possessions_of t)
  ∧ (0 < team_possessions_of t →
      l.lookup "ortg" = some (some (100 * t.points / team_possessions_of t)))
  ∧ ((∃ v, l.lookup "drtg" = some (some v)) ↔ 0 < team_possessions_of o)
  ∧ (0 < team_possessions_of o →
      l.lookup "drtg" = some (some (100 * o.points / team_possessions_of o)))
  ∧ ((∃ v, l.lookup "net_rtg" = some (some v)) ↔
      (∃ a b, l.lookup "ortg" = some (some a) ∧ a ≠ 0 ∧
        l.lookup "drtg" = some (some b) ∧ b ≠ 0))
  ∧ (∀ a b, l.lookup "ortg" = some (some a) →
      l.lookup "drtg" = some (some b) → a ≠ 0 → b ≠ 0 →
      l.lookup "net_rtg" = some (some (a - b))) := by
  obtain ⟨triad, _, rfl⟩ := calculate_all_team_stats_ok t o l h
  rw [team_lookup_ortg, team_lookup_drtg, team_lookup_net_rtg]
  by_cases hp : 0 < team_possessions_of t <;>
    by_cases hq : 0 < team_possessions_of o
  · refine ⟨by simp [team_ortg, hp], fun _ => by simp [team_ortg, hp],
      by simp [team_ortg, hq], fun _ => by simp [team_ortg, hq], ?_, ?_⟩
    · by_cases ha : (100 * (t.points : ℚ) / team_possessions_of t) = 0 <;>
        by_cases hb : (100 * (o.points : ℚ) / team_possessions_of o) = 0 <;>
        simp [team_ortg, hp, hq, truthyOptRat, ha, hb]
    · intro a b hla hlb ha hb
      simp only [team_ortg, if_pos hp, if_pos hq, Option.some.injEq] at hla hlb
      subst hla
      subst hlb
      simp [team_ortg, hp, hq, truthyOptRat, ha, hb]
  · refine ⟨by simp [team_ortg, hp], fun _ => by simp [team_ortg, hp],
      by simp [team_ortg, hq], fun hc => absurd hc hq, ?_, ?_⟩
    · simp [team_ortg, hp, hq, truthyOptRat]
    · intro a b hla hlb
      simp [team_ortg, hq] at hlb
  · refine ⟨by simp [team_ortg, hp], fun hc => absurd hc hp,
      by simp [team_ortg, hq], fun _ => by simp [team_ortg, hq], ?_, ?_⟩
    · simp [team_ortg, hp, hq, truthyOptRat]
    · intro a b hla hlb
      simp [team_ortg, hp] at hla
  · refine ⟨by simp [team_ortg, hp], fun hc => absurd hc hp,
      by simp [team_ortg, hq], fun hc => absurd hc hq, ?_, ?_⟩
    · simp [team_ortg, hp, hq, truthyOptRat]
    · intro a b hla hlb
      simp [team_ortg, hp] at hla

/-- A high-scoring team line with positive estimated possessions (the
rebound fields are left zero so the rebound triad is undefined). -/
def teamHighScore : TeamBoxScore :=
  { points := 110, field_goals_attempted := 88, free_throws_attempted := 20,
    offensive_rebounds := 10, turnovers := 14 }

/-- The opposing team line for the rating witness. -/
def teamLowScore : TeamBoxScore :=
  { points := 104, field_goals_attempted := 90, free_throws_attempted := 18,
    offensive_rebounds := 8, turnovers := 12 }

/-- Witness for C4: the team with 100.8 estimated possessions has a defined
offensive rating. -/
theorem team_ratings_definedness_witness :
    ∃ v, (team_stats_entries teamHighScore teamLowScore
      (none, none, none)).lookup "ortg" = some (some v) :=
  ((team_ratings_definedness teamHighScore teamLowScore
      (team_stats_entries teamHighScore teamLowScore (none, none, none))
      rfl).1).mpr
    (by norm_num [team_possessions_of, estimate_possessions, teamHighScore])

/-- A team line whose offensive rebound is its only rebound: the rebound
guard passes and the offensive pool is fine, but the defensive pool
`defensive_rebounds + opponent.offensive_rebounds` is zero. -/
def teamOnlyOffReb : TeamBoxScore :=
  { offensive_rebounds := 1, rebounds := 1 }

/-- C5 counterexample: on this input `calculate_all_team_stats` raises from
the second rebound division instead of returning any mapping at all, so the
key set is not produced for every input. -/
theorem team_stats_no_mapping_on_error :
    calculate_all_team_stats teamOnlyOffReb teamAllZero =
      Except.error () := rfl

/-- C5 (amended): the player aggregator always returns exactly the twelve
documented keys in insertion order; the team aggregator returns exactly the
fourteen documented keys whenever it returns at all (it raises on the
rebound-pool inputs of the counterexample). -/
theorem aggregator_key_sets_stable :
    (∀ b : PlayerBoxScore, (calculate_all_player_stats b).map Prod.fst =
      ["ts_pct", "efg_pct", "ftr", "ppp", "usg_pct", "tov_pct", "ast_pct",
       "reb_pct", "oreb_pct", "dreb_pct", "stl_pct", "blk_pct"])
  ∧ (∀ (t o : TeamBoxScore) (l : List (String × Option ℚ)),
      calculate_all_team_stats t o = Except.ok l →
      l.map Prod.fst = ["ts_pct", "efg_pct", "ftr", "possessions", "pace",
        "ppp", "tov_pct", "oreb_pct", "dreb_pct", "reb_pct", "ortg", "drtg",
        "net_rtg", "four_factors"]) := by
  constructor
  · intro b
    rfl
  · intro t o l h
    obtain ⟨triad, _, rfl⟩ := calculate_all_team_stats_ok t o l h
    rfl

/-- Witness for C5 at the concrete player and team lines. -/
theorem aggregator_key_sets_witness :
    (calculate_all_player_stats basePlayer).map Prod.fst =
      ["ts_pct", "efg_pct", "ftr", "ppp", "usg_pct", "tov_pct", "ast_pct",
       "reb_pct", "oreb_pct", "dreb_pct", "stl_pct", "blk_pct"]
  ∧ (team_stats_entries teamHighScore teamLowScore
      (none, none, none)).map Prod.fst =
      ["ts_pct", "efg_pct", "ftr", "possessions", "pace", "ppp", "tov_pct",
       "oreb_pct", "dreb_pct", "reb_pct", "ortg", "drtg", "net_rtg",
       "four_factors"] :=
  ⟨aggregator_key_sets_stable.1 basePlayer,
   aggregator_key_sets_stable.2 teamHighScore teamLowScore
     (team_stats_entries teamHighScore teamLowScore (none, none, none)) rfl⟩

/-- Two shares of one pool sum to the whole: 100·x/(x+y) + 100·y/(y+x) = 100
when the pool is non-empty. -/
lemma complement_ratio_sum (x y : ℤ) (hne : x + y ≠ 0) :
    100 * (x : ℚ) / ((x + y : ℤ) : ℚ) +
      100 * (y : ℚ) / ((y + x : ℤ) : ℚ) = 100 := by
  have hq : ((x : ℚ) + y) ≠ 0 := by
    intro hc
    apply hne
    exact_mod_cast hc
  push_cast
  rw [add_comm (y : ℚ) x, div_add_div_same,
    show (100 : ℚ) * x + 100 * y = 100 * ((x : ℚ) + y) by ring,
    mul_div_assoc, div_self hq, mul_one]

/-- C8: whenever both orientations of `calculate_all_team_stats` return and
both rebound percentages of a complementary pair are defined, team OREB%
plus opponent DREB% is 100, team DREB% plus opponent OREB% is 100, and the
two REB% values sum to 100. -/
theorem team_rebound_percentages_complementary (t o : TeamBoxScore)
    (l l' : List (String × Option ℚ))
    (h : calculate_all_team_stats t o = Except.ok l)
    (h' : calculate_all_team_stats o t = Except.ok l') :
    (∀ a b, l.lookup "oreb_pct" = some (some a) →
      l'.lookup "dreb_pct" = some (some b) → a + b = 100)
  ∧ (∀ a b, l.lookup "dreb_pct" = some (some a) →
      l'.lookup "oreb_pct" = some (some b) → a + b = 100)
  ∧ (∀ a b, l.lookup "reb_pct" = some (some a) →
      l'.lookup "reb_pct" = some (some b) → a + b = 100) := by
  obtain ⟨tr, htr, rfl⟩ := calculate_all_team_stats_ok t o l h
  obtain ⟨tr', htr', rfl⟩ := calculate_all_team_stats_ok o t l' h'
  rcases team_rebound_triad_ok_cases t o tr htr with
    ⟨hpos, hne1, hne2, rfl⟩ | ⟨hneg, rfl⟩
  · rcases team_rebound_triad_ok_cases o t tr' htr' with
      ⟨hpos', hne1', hne2', rfl⟩ | ⟨hneg', rfl⟩
    · refine ⟨?_, ?_, ?_⟩
      · intro a b ha hb
        rw [team_lookup_oreb_pct] at ha
        rw [team_lookup_dreb_pct] at hb
        simp only [Option.some.injEq] at ha hb
        subst ha
        subst hb
        exact complement_ratio_sum t.offensive_rebounds
          o.defensive_rebounds hne1
      · intro a b ha hb
        rw [team_lookup_dreb_pct] at ha
        rw [team_lookup_oreb_pct] at hb
        simp only [Option.some.injEq] at ha hb
        subst ha
        subst hb
        exact complement_ratio_sum t.defensive_rebounds
          o.offensive_rebounds hne2
      · intro a b ha hb
        rw [team_lookup_reb_pct] at ha
        rw [team_lookup_reb_pct] at hb
        simp only [Option.some.injEq] at ha hb
        subst ha
        subst hb
        exact complement_ratio_sum t.rebounds o.rebounds hpos.ne'
    · exact absurd hpos (by omega)
  · refine ⟨?_, ?_, ?_⟩ <;> intro a b ha hb
    · rw [team_lookup_oreb_pct] at ha
      simp at ha
    · rw [team_lookup_dreb_pct] at ha
      simp at ha
    · rw [team_lookup_reb_pct] at ha
      simp at ha

/-- A team line with 10 offensive and 30 defensive rebounds. -/
def teamRebA : TeamBoxScore :=
  { offensive_rebounds := 10, defensive_rebounds := 30, rebounds := 40 }

/-- A team line with 8 offensive and 32 defensive rebounds. -/
def teamRebB : TeamBoxScore :=
  { offensive_rebounds := 8, defensive_rebounds := 32, rebounds := 40 }

/-- Witness for C8: with pools 42, 38 and 80 the three complementary pairs
each sum to 100. -/
theorem team_rebound_percentages_witness :
    100 * ((10 : ℤ) : ℚ) / ((42 : ℤ) : ℚ) +
      100 * ((32 : ℤ) : ℚ) / ((42 : ℤ) : ℚ) = 100
  ∧ 100 * ((30 : ℤ) : ℚ) / ((38 : ℤ) : ℚ) +
      100 * ((8 : ℤ) : ℚ) / ((38 : ℤ) : ℚ) = 100
  ∧ 100 * ((40 : ℤ) : ℚ) / ((80 : ℤ) : ℚ) +
      100 * ((40 : ℤ) : ℚ) / ((80 : ℤ) : ℚ) = 100 := by
  obtain ⟨p1, p2, p3⟩ :=
    team_rebound_percentages_complementary teamRebA teamRebB _ _ rfl rfl
  exact ⟨p1 _ _ rfl rfl, p2 _ _ rfl rfl, p3 _ _ rfl rfl⟩
